import Mathlib

/-
Shallow embedding of `src/option.ts` from `@marionebl/option`.

The source class `Option<Payload>` has a single private slot
`payload?: Payload`; presence is decided solely by
`typeof this.payload !== "undefined"`.  We embed the runtime values a slot
can hold as `JSVal`, with `JSVal.undef` standing for JavaScript's
`undefined` (the absence sentinel).  An `Option` object is fully determined
by its slot content, so it is embedded as the structure `OptionJS` with one
field `payload : JSVal`.  An `Option` object occurring *as a value* (for
example inside a `Result`) is represented by the `JSVal.opt` constructor
carrying its slot.

The `Result` collaborator comes from `@marionebl/result`, which is not part
of this repository; it is modelled from the spec's collaborator contract
(see `JsResult`).

TypeScript callbacks may have side effects, and several spec sentences are
about callbacks *not being invoked*.  Methods taking a callback (`map`,
`andThen`) are therefore embedded with an explicit state type `σ`: a
callback is `σ → JSVal → σ × _`, and "the callback is not invoked" shows up
as the state being returned unchanged for every `σ` and every callback.

Mutating methods (`take`, `replace`) return a pair
`(receiver state after the call, returned Option)`.

Throwing methods (`expect`, `unwrap`) return `Except String JSVal`; the
library's single error kind (`ValueAbsent` in the spec's taxonomy) is
represented by the `Except.error` channel carrying the error message.
-/

mutual

/-- A JavaScript runtime value, as far as this library can observe it:
`undefined`, `null`, booleans, numbers, strings, `Result` instances
(for `transpose` / `okOr` interop) and `Option` instances (represented by
their payload slot). -/
inductive JSVal : Type where
  | undef : JSVal
  | null : JSVal
  | bool (b : Bool) : JSVal
  | num (n : Int) : JSVal
  | str (s : String) : JSVal
  | res (r : JsResult) : JSVal
  | opt (slot : JSVal) : JSVal

/-- Modelled from the spec: the Outcome Container from `@marionebl/result`
is an external collaborator whose code is not under `src/`.  Its contract:
constructible via `Ok(value)` / `Err(message, code?)`, queryable via
`isOk()` / `isErr()`, unwrappable via `unwrap()` / `unwrapErr()`.  A call
`Err(message)` that supplies no second argument leaves the code parameter
`undefined`, so an absent code is `JSVal.undef`. -/
inductive JsResult : Type where
  | Ok (value : JSVal) : JsResult
  | Err (message : String) (code : JSVal) : JsResult

end

/-- Embeds the JavaScript test `typeof v === "undefined"`: true exactly for
`undefined`. -/
def JSVal.isUndefined : JSVal → Bool
  | .undef => true
  | _ => false

/-- Embeds the JavaScript test `v instanceof Result`: true exactly for
`Result` instances. -/
def JSVal.instanceofResult : JSVal → Bool
  | .res _ => true
  | _ => false

/-- Modelled from the spec: `isOk()` of the Outcome collaborator. -/
def JsResult.isOk : JsResult → Bool
  | .Ok _ => true
  | .Err _ _ => false

/-- Modelled from the spec: `isErr()` of the Outcome collaborator. -/
def JsResult.isErr : JsResult → Bool
  | .Ok _ => false
  | .Err _ _ => true

/-- The `Option<Payload>` class: one private slot `payload`, where
`JSVal.undef` is the absent slot. -/
structure OptionJS : Type where
  payload : JSVal

/-- Embeds `static from<Payload>(payload?)`: `new Option({ payload })`.  An absent
argument is `JSVal.undef`. -/
def OptionJS.from' (payload : JSVal) : OptionJS := ⟨payload⟩

/-- Embeds `static Some<Payload>(payload)`: `new Option({ payload })` (the `Some`
typing is static only; the runtime object is the same as `from`). -/
def OptionJS.Some (payload : JSVal) : OptionJS := ⟨payload⟩

/-- Embeds `static None()`: `new Option({ payload: undefined })`. -/
def OptionJS.None : OptionJS := ⟨JSVal.undef⟩

/-- An `Option` object seen as a JavaScript value (for example when wrapped
inside a `Result`): `JSVal.opt` of its payload slot. -/
def OptionJS.toVal (o : OptionJS) : JSVal := JSVal.opt o.payload

/-- Embeds `isSome()`: `typeof this.payload !== "undefined"`. -/
def OptionJS.isSome (o : OptionJS) : Bool := !o.payload.isUndefined

/-- Embeds `isNone()`: `typeof this.payload === "undefined"`. -/
def OptionJS.isNone (o : OptionJS) : Bool := o.payload.isUndefined

/-- Embeds `expect(message)`: throws `Error(message)` when the slot is undefined,
else returns the payload. -/
def OptionJS.expect (o : OptionJS) (message : String) : Except String JSVal :=
  if o.payload.isUndefined then Except.error message
  else Except.ok o.payload

/-- Embeds `unwrap()`: throws `Error("unwrap: Expected Some(), was None()")` when
the slot is undefined, else returns the payload. -/
def OptionJS.unwrap (o : OptionJS) : Except String JSVal :=
  if o.payload.isUndefined then
    Except.error "unwrap: Expected Some(), was None()"
  else Except.ok o.payload

/-- Embeds `map(fn)`: if the slot is undefined, returns `this`; else returns
`Option.from(fn(this.payload))`.  The callback is state-passing so that
non-invocation is observable. -/
def OptionJS.map {σ : Type} (o : OptionJS) (fn : σ → JSVal → σ × JSVal)
    (s : σ) : σ × OptionJS :=
  if o.payload.isUndefined then (s, o)
  else
    let r := fn s o.payload
    (r.1, OptionJS.from' r.2)

/-- Embeds `okOr(message, c?)`: if the slot is defined, `Result.Ok(this.payload)`;
else `Result.Err(message)` — note the source passes only `message` to the
`Err` constructor, so the code slot of the failure is left `undefined`. -/
def OptionJS.okOr (o : OptionJS) (message : String) (c : JSVal) : JsResult :=
  if !o.payload.isUndefined then JsResult.Ok o.payload
  else JsResult.Err message JSVal.undef

/-- Embeds `andThen(fn)`: if `this.isNone()`, returns `this`; else returns
`fn(this.payload)` directly (no re-wrapping).  The callback is
state-passing so that short-circuiting is observable. -/
def OptionJS.andThen {σ : Type} (o : OptionJS)
    (fn : σ → JSVal → σ × OptionJS) (s : σ) : σ × OptionJS :=
  if o.payload.isUndefined then (s, o)
  else fn s o.payload

/-- Embeds `xor(b)`: `this` when `this.isSome() && b.isNone()`; `b` when
`this.isNone() && b.isSome()`; else `Option.None()`. -/
def OptionJS.xor (o b : OptionJS) : OptionJS :=
  if o.isSome && b.isNone then o
  else if o.isNone && b.isSome then b
  else OptionJS.None

/-- Embeds `take()`: saves the payload, sets the slot to `undefined`, and returns
`Option.from(saved)`.  Result: `(receiver after, returned Option)`. -/
def OptionJS.take (o : OptionJS) : OptionJS × OptionJS :=
  (⟨JSVal.undef⟩, OptionJS.from' o.payload)

/-- Embeds `replace(payload)`: saves the old payload, sets the slot to `payload`,
and returns `Option.from(old)`.  Result: `(receiver after, returned
Option)`. -/
def OptionJS.replace (o : OptionJS) (payload : JSVal) : OptionJS × OptionJS :=
  (⟨payload⟩, OptionJS.from' o.payload)

/-- Embeds `async transpose()`: when `this.payload instanceof Result`, first the
awaited `isErr()` branch returns `Result.Err(err.message)` where
`err = await unwrapErr()` (the inner message, no code argument); then the
awaited `isOk()` branch returns `Result.Ok(Option.from(await unwrap()))`.
Any other payload falls through to `Result.Ok(Option.None())`.  With the
spec-modelled two-variant Outcome, the `isErr` / `isOk` / fall-through
chain is exactly this match. -/
def OptionJS.transpose (o : OptionJS) : JsResult :=
  match o.payload with
  | JSVal.res (JsResult.Err m _) => JsResult.Err m JSVal.undef
  | JSVal.res (JsResult.Ok v) => JsResult.Ok (OptionJS.from' v).toVal
  | _ => JsResult.Ok OptionJS.None.toVal

/-- Call-count instrumented `square` from the spec's `andThen` chain
example: increments the first counter and returns `Some(n * n)` on a
number payload. -/
def squareStep (c : ℕ × ℕ) (v : JSVal) : (ℕ × ℕ) × OptionJS :=
  ((c.1 + 1, c.2),
    match v with
    | JSVal.num n => OptionJS.Some (JSVal.num (n * n))
    | _ => OptionJS.None)

/-- Call-count instrumented `None`-returning step: increments the second
counter and returns `None()`. -/
def nopeStep (c : ℕ × ℕ) (_ : JSVal) : (ℕ × ℕ) × OptionJS :=
  ((c.1, c.2 + 1), OptionJS.None)

/-- Helper: `isNone` is the boolean negation of `isSome` on every
container state. -/
theorem OptionJS.isNone_eq_not_isSome (o : OptionJS) :
    o.isNone = !o.isSome := by
  simp [OptionJS.isNone, OptionJS.isSome]

/-- C9: for every option, `isNone()` returns exactly the negation of
`isSome()`; the two queries are complements on every container state
(hence in every state reached by constructors and mutating operations). -/
theorem isSome_isNone_complements (o : OptionJS) :
    o.isNone = !o.isSome := by
  simp [OptionJS.isNone, OptionJS.isSome]

/-- C10: the absence sentinel is exactly the `undefined` value: `from(p)`
and `Some(p)` on any defined payload — including falsy or null-like values
such as `null`, `0`, `false` and `""` — give a container with
`isSome() = true` whose `unwrap()` returns `p`; only `undefined` collapses
to `None`. -/
theorem sentinel_is_exactly_undefined :
    (∀ p : JSVal, p.isUndefined = false →
        (OptionJS.from' p).isSome = true ∧
        (OptionJS.from' p).unwrap = Except.ok p ∧
        (OptionJS.Some p).isSome = true ∧
        (OptionJS.Some p).unwrap = Except.ok p) ∧
    (OptionJS.from' JSVal.undef).isSome = false ∧
    (OptionJS.from' JSVal.null).isSome = true ∧
    (OptionJS.from' (JSVal.num 0)).isSome = true ∧
    (OptionJS.from' (JSVal.bool false)).isSome = true ∧
    (OptionJS.from' (JSVal.str "")).isSome = true := by
  refine ⟨?_, rfl, rfl, rfl, rfl, rfl⟩
  intro p h
  refine ⟨?_, ?_, ?_, ?_⟩ <;>
    simp [OptionJS.from', OptionJS.Some, OptionJS.isSome, OptionJS.unwrap, h]

/-- Witness for C10 at the falsy payload `null`. -/
theorem sentinel_is_exactly_undefined_witness :
    (OptionJS.from' JSVal.null).isSome = true ∧
    (OptionJS.from' JSVal.null).unwrap = Except.ok JSVal.null ∧
    (OptionJS.Some JSVal.null).isSome = true ∧
    (OptionJS.Some JSVal.null).unwrap = Except.ok JSVal.null :=
  sentinel_is_exactly_undefined.1 JSVal.null rfl

/-- C8: `xor(b)` returns a `Some` exactly when exactly one of the two
operands is `Some`, and then returns that operand; it returns `None` when
both operands are `Some` and when both are `None`. -/
theorem xor_exactly_one (a b : OptionJS) :
    ((a.xor b).isSome = (a.isSome != b.isSome)) ∧
    (a.isSome = true → b.isSome = false → a.xor b = a) ∧
    (a.isSome = false → b.isSome = true → a.xor b = b) ∧
    (a.isSome = true → b.isSome = true → a.xor b = OptionJS.None) ∧
    (a.isSome = false → b.isSome = false → a.xor b = OptionJS.None) := by
  have ha := OptionJS.isNone_eq_not_isSome a
  have hb := OptionJS.isNone_eq_not_isSome b
  rcases h1 : a.isSome <;> rcases h2 : b.isSome <;>
    simp_all [OptionJS.xor, OptionJS.isSome, OptionJS.None, JSVal.isUndefined]

/-- Witness for C8 at concrete operands `Some(2)` / `None()` and
`Some(100)` / `Some(2)`. -/
theorem xor_exactly_one_witness :
    (OptionJS.Some (JSVal.num 2)).xor OptionJS.None
        = OptionJS.Some (JSVal.num 2) ∧
    OptionJS.None.xor (OptionJS.Some (JSVal.num 2))
        = OptionJS.Some (JSVal.num 2) ∧
    (OptionJS.Some (JSVal.num 100)).xor (OptionJS.Some (JSVal.num 2))
        = OptionJS.None ∧
    OptionJS.None.xor OptionJS.None = OptionJS.None :=
  ⟨(xor_exactly_one (OptionJS.Some (JSVal.num 2)) OptionJS.None).2.1 rfl rfl,
   (xor_exactly_one OptionJS.None (OptionJS.Some (JSVal.num 2))).2.2.1 rfl rfl,
   (xor_exactly_one (OptionJS.Some (JSVal.num 100))
      (OptionJS.Some (JSVal.num 2))).2.2.2.1 rfl rfl,
   (xor_exactly_one OptionJS.None OptionJS.None).2.2.2.2 rfl rfl⟩

/-- C5: after `take()` the receiver is always `None`; `take()` on `Some(p)`
returns `Some(p)` and on `None` returns `None`, so a second `take()` on the
same receiver always returns `None`. -/
theorem take_resets_receiver :
    (∀ o : OptionJS, o.take.1 = OptionJS.None) ∧
    (∀ p : JSVal, p.isUndefined = false →
        (OptionJS.Some p).take.2 = OptionJS.Some p) ∧
    OptionJS.None.take.2 = OptionJS.None ∧
    (∀ o : OptionJS, o.take.1.take.2 = OptionJS.None) := by
  refine ⟨fun o => rfl, fun p h => rfl, rfl, fun o => rfl⟩

/-- Witness for C5 at the concrete payload `2`. -/
theorem take_resets_receiver_witness :
    (OptionJS.Some (JSVal.num 2)).take.2 = OptionJS.Some (JSVal.num 2) :=
  take_resets_receiver.2.1 (JSVal.num 2) rfl

/-- C6: `expect(message)` and `unwrap()` return the payload on a `Some`;
on a `None`, `expect` fails with the caller-supplied message verbatim and
`unwrap` fails with the fixed message
`"unwrap: Expected Some(), was None()"` (the library's single `ValueAbsent`
error kind is represented by the error channel carrying the message). -/
theorem expect_unwrap_messages :
    (∀ (p : JSVal) (msg : String), p.isUndefined = false →
        (OptionJS.Some p).expect msg = Except.ok p) ∧
    (∀ p : JSVal, p.isUndefined = false →
        (OptionJS.Some p).unwrap = Except.ok p) ∧
    (∀ msg : String, OptionJS.None.expect msg = Except.error msg) ∧
    OptionJS.None.unwrap
        = Except.error "unwrap: Expected Some(), was None()" := by
  refine ⟨?_, ?_, fun msg => rfl, rfl⟩
  · intro p msg h
    simp [OptionJS.expect, OptionJS.Some, h]
  · intro p h
    simp [OptionJS.unwrap, OptionJS.Some, h]

/-- Witness for C6 at the concrete payload `"something"` and message
`"boom"`. -/
theorem expect_unwrap_messages_witness :
    (OptionJS.Some (JSVal.str "something")).expect "boom"
        = Except.ok (JSVal.str "something") ∧
    (OptionJS.Some (JSVal.str "something")).unwrap
        = Except.ok (JSVal.str "something") :=
  ⟨expect_unwrap_messages.1 (JSVal.str "something") "boom" rfl,
   expect_unwrap_messages.2.1 (JSVal.str "something") rfl⟩

/-- Counterexample for C3: the claim says the receiver is always
`Some(payload)` after `replace(payload)`, *including a payload equal to the
absence sentinel*; but `Some(1).replace(undefined)` sets the slot to
`undefined`, so the receiver is not a `Some` afterwards. -/
theorem replace_sentinel_counterexample :
    ¬ (((OptionJS.Some (JSVal.num 1)).replace JSVal.undef).1.isSome
        = true) := by
  simp [OptionJS.replace, OptionJS.Some, OptionJS.isSome, JSVal.isUndefined]

/-- C3 (amended): `replace(p)` returns a container holding the receiver's
previous payload (`None` if the receiver held none), and afterwards the
receiver's slot holds `p`: the receiver is `Some(p)` when `p` is not the
absence sentinel, and `None` when `p` is the sentinel itself. -/
theorem replace_spec_amended :
    (∀ (o : OptionJS) (p : JSVal), o.isSome = true →
        (o.replace p).2 = OptionJS.Some o.payload) ∧
    (∀ p : JSVal, (OptionJS.None.replace p).2 = OptionJS.None) ∧
    (∀ (o : OptionJS) (p : JSVal), (o.replace p).1.payload = p) ∧
    (∀ (o : OptionJS) (p : JSVal), p.isUndefined = false →
        (o.replace p).1 = OptionJS.Some p) ∧
    (∀ o : OptionJS, (o.replace JSVal.undef).1 = OptionJS.None) := by
  exact ⟨fun o p _ => rfl, fun p => rfl, fun o p => rfl,
    fun o p _ => rfl, fun o => rfl⟩

/-- Witness for C3 (amended) at `Some(1).replace(2)`. -/
theorem replace_spec_amended_witness :
    ((OptionJS.Some (JSVal.num 1)).replace (JSVal.num 2)).2
        = OptionJS.Some (JSVal.num 1) ∧
    ((OptionJS.Some (JSVal.num 1)).replace (JSVal.num 2)).1
        = OptionJS.Some (JSVal.num 2) :=
  ⟨replace_spec_amended.1 (OptionJS.Some (JSVal.num 1)) (JSVal.num 2) rfl,
   replace_spec_amended.2.2.2.1 (OptionJS.Some (JSVal.num 1))
     (JSVal.num 2) rfl⟩

/-- Counterexample for C2: the claim says a supplied optional code is
passed as second argument to the failure constructor, but the source body
calls `Result.Err(message)` with only the message: on `None()` with
message `"msg"` and code `7`, the failure's code slot stays `undefined`
rather than `7`. -/
theorem okOr_drops_code_counterexample :
    ¬ (OptionJS.None.okOr "msg" (JSVal.num 7)
        = JsResult.Err "msg" (JSVal.num 7)) := by
  simp [OptionJS.okOr, OptionJS.None, JSVal.isUndefined]

/-- C2 (amended): `okOr(message, code?)` on a `Some(p)` returns a success
outcome wrapping `p`; on a `None` it returns a failure outcome constructed
from the message alone — the optional code argument is accepted but never
forwarded to the failure constructor, whose code slot stays `undefined`. -/
theorem okOr_spec_amended :
    (∀ (p : JSVal) (msg : String) (c : JSVal), p.isUndefined = false →
        (OptionJS.Some p).okOr msg c = JsResult.Ok p) ∧
    (∀ (msg : String) (c : JSVal),
        OptionJS.None.okOr msg c = JsResult.Err msg JSVal.undef) := by
  constructor
  · intro p msg c h
    simp [OptionJS.okOr, OptionJS.Some, h]
  · intro msg c
    rfl

/-- Witness for C2 (amended) at `Some(1).okOr("msg", 7)`. -/
theorem okOr_spec_amended_witness :
    (OptionJS.Some (JSVal.num 1)).okOr "msg" (JSVal.num 7)
        = JsResult.Ok (JSVal.num 1) :=
  okOr_spec_amended.1 (JSVal.num 1) "msg" (JSVal.num 7) rfl

/-- C4: `map(fn)` on a `None` returns `None` without invoking `fn` (the
instrumentation state is unchanged for every state type and callback, and
the result does not depend on `fn`); on a `Some(p)` it returns
`from(fn(p))`, so the absence-collapse rule re-applies and a callback
returning the absence sentinel yields `None`. -/
theorem map_none_skips_fn_and_collapses :
    (∀ (σ : Type) (fn : σ → JSVal → σ × JSVal) (s : σ),
        OptionJS.None.map fn s = (s, OptionJS.None)) ∧
    (∀ (σ : Type) (fn : σ → JSVal → σ × JSVal) (s : σ) (p : JSVal),
        p.isUndefined = false →
        (OptionJS.Some p).map fn s
          = ((fn s p).1, OptionJS.from' (fn s p).2)) ∧
    (∀ (σ : Type) (fn : σ → JSVal → σ × JSVal) (s : σ) (p : JSVal),
        p.isUndefined = false → (fn s p).2 = JSVal.undef →
        ((OptionJS.Some p).map fn s).2 = OptionJS.None) ∧
    (∀ (g : JSVal → JSVal) (n : ℕ),
        OptionJS.None.map (fun c v => (c + 1, g v)) n = (n, OptionJS.None)) := by
  refine ⟨fun σ fn s => rfl, ?_, ?_, fun g n => rfl⟩
  · intro σ fn s p h
    simp [OptionJS.map, OptionJS.Some, h]
  · intro σ fn s p h hu
    simp [OptionJS.map, OptionJS.Some, OptionJS.from', OptionJS.None, h, hu]

/-- Witness for C4: mapping `Some(3)` with a squaring callback under a
call counter gives one call and `Some(9)`; a callback returning the
sentinel collapses to `None`. -/
theorem map_none_skips_fn_and_collapses_witness :
    (OptionJS.Some (JSVal.num 3)).map
        (fun (c : ℕ) v =>
          (c + 1, match v with | JSVal.num n => JSVal.num (n * n) | _ => v)) 0
      = (1, OptionJS.from' (JSVal.num 9)) ∧
    ((OptionJS.Some (JSVal.num 3)).map
        (fun (c : ℕ) _ => (c + 1, JSVal.undef)) 0).2 = OptionJS.None :=
  ⟨map_none_skips_fn_and_collapses.2.1 ℕ
      (fun c v =>
        (c + 1, match v with | JSVal.num n => JSVal.num (n * n) | _ => v))
      0 (JSVal.num 3) rfl,
   map_none_skips_fn_and_collapses.2.2.1 ℕ
      (fun c _ => (c + 1, JSVal.undef)) 0 (JSVal.num 3) rfl rfl⟩

/-- C7: `andThen(fn)` on a `None` returns `None` without invoking `fn`
(the instrumentation state is unchanged for every state type and
callback); on a `Some(p)` it returns `fn(p)` directly without re-wrapping.
The counted chain `Some(2).andThen(square).andThen(square)` gives
`Some(16)` with two `square` calls, and a `None`-returning step
short-circuits: in `Some(2).andThen(square).andThen(nope).andThen(square)`
the final counters show one `square` call and one `nope` call only. -/
theorem andThen_chain_short_circuits :
    (∀ (σ : Type) (fn : σ → JSVal → σ × OptionJS) (s : σ),
        OptionJS.None.andThen fn s = (s, OptionJS.None)) ∧
    (∀ (σ : Type) (fn : σ → JSVal → σ × OptionJS) (s : σ) (p : JSVal),
        p.isUndefined = false → (OptionJS.Some p).andThen fn s = fn s p) ∧
    (let r1 := (OptionJS.Some (JSVal.num 2)).andThen squareStep (0, 0)
     let r2 := r1.2.andThen squareStep r1.1
     r2.2 = OptionJS.Some (JSVal.num 16) ∧ r2.1 = (2, 0)) ∧
    (let r1 := (OptionJS.Some (JSVal.num 2)).andThen squareStep (0, 0)
     let r2 := r1.2.andThen nopeStep r1.1
     let r3 := r2.2.andThen squareStep r2.1
     r3.2 = OptionJS.None ∧ r3.1 = (1, 1)) := by
  refine ⟨fun σ fn s => rfl, ?_, ⟨rfl, rfl⟩, ⟨rfl, rfl⟩⟩
  intro σ fn s p h
  simp [OptionJS.andThen, OptionJS.Some, h]

/-- Witness for C7 at `Some(2).andThen(squareStep)`. -/
theorem andThen_chain_short_circuits_witness :
    (OptionJS.Some (JSVal.num 2)).andThen squareStep (0, 0)
        = squareStep (0, 0) (JSVal.num 2) :=
  andThen_chain_short_circuits.2.1 (ℕ × ℕ) squareStep (0, 0)
    (JSVal.num 2) rfl

/-- C1: `transpose()` resolves per the case split: a `None` receiver gives
a success outcome wrapping `None`; `Some(Err(m, c))` gives a failure
outcome carrying the inner failure's message `m`; `Some(Ok(v))` gives a
success outcome wrapping `Some(v)` (the library's `Some` constructor, so a
sentinel-valued inner value makes that wrapped option the `None` object);
and `Some(x)` for any defined `x` that is not a `Result` instance gives a
success outcome wrapping `None`. -/
theorem transpose_case_split :
    OptionJS.None.transpose = JsResult.Ok OptionJS.None.toVal ∧
    (∀ (m : String) (c : JSVal),
        (OptionJS.Some (JSVal.res (JsResult.Err m c))).transpose
          = JsResult.Err m JSVal.undef) ∧
    (∀ v : JSVal,
        (OptionJS.Some (JSVal.res (JsResult.Ok v))).transpose
          = JsResult.Ok (OptionJS.Some v).toVal) ∧
    (∀ x : JSVal, x.isUndefined = false → x.instanceofResult = false →
        (OptionJS.Some x).transpose = JsResult.Ok OptionJS.None.toVal) := by
  refine ⟨rfl, fun m c => rfl, fun v => rfl, ?_⟩
  intro x _ hr
  cases x <;> simp_all [JSVal.instanceofResult, OptionJS.transpose,
    OptionJS.Some, OptionJS.None, OptionJS.toVal]

/-- Witness for C1 at the non-`Result` payload `Some(5)`. -/
theorem transpose_case_split_witness :
    (OptionJS.Some (JSVal.num 5)).transpose
        = JsResult.Ok OptionJS.None.toVal :=
  transpose_case_split.2.2.2 (JSVal.num 5) rfl rfl
